import Mathlib

/-!
Verification of the `auto-music-gen` repository against its natural-language
specification.  The Python sources are shallowly embedded: JSON-ish Python
values become the inductive type `PyVal`, Python exceptions become `Except`,
machine floats are modelled as exact rationals (`ℚ`), and the standard-library
JSON decoder (`json.loads`) is abstracted as a parameter
`decode : String → Option PyVal` (returning `Option.none` where `json.loads`
would raise `JSONDecodeError`).
-/

namespace AutoMusicGen

/-- A Python value as it can appear in a decoded JSON payload
(models the dynamic values flowing through `models/results.py`). -/
inductive PyVal where
  | none
  | bool (b : Bool)
  | int (n : Int)
  | float (q : ℚ)
  | str (s : String)
  | list (xs : List PyVal)
  | dict (kvs : List (String × PyVal))

/-- A Python exception, as far as the embedded code can raise one.
`validationError` stands for pydantic's `ValidationError`. -/
inductive PyErr where
  | keyError
  | typeError
  | validationError
  | runtimeError (msg : String)
  | httpStatusError (code : Nat)
  | indexError
deriving DecidableEq, Repr

/-- Python truthiness (`bool(v)`), used by `or` chains and `if entry.get("error"):`. -/
def pyTruthy : PyVal → Bool
  | .none => false
  | .bool b => b
  | .int n => n != 0
  | .float q => q != 0
  | .str s => s != ""
  | .list xs => !xs.isEmpty
  | .dict kvs => !kvs.isEmpty

/-- `d.get(k, dflt)` on a Python dict modelled as an association list. -/
def pyGetD (kvs : List (String × PyVal)) (k : String) (dflt : PyVal) : PyVal :=
  (List.lookup k kvs).getD dflt

/-- pydantic validation of a `str` field: only a Python `str` is accepted. -/
def asStr : PyVal → Except PyErr String
  | .str s => .ok s
  | _ => .error .validationError

/-- pydantic validation of an `int` field.  (pydantic's lax mode would also
coerce integral floats and numeric strings; those coercions are never
exercised by the claims and are modelled as rejections.) -/
def asInt : PyVal → Except PyErr Int
  | .int n => .ok n
  | _ => .error .validationError

/-- pydantic validation of a `dict[str, Any]` field. -/
def asDictVal : PyVal → Except PyErr (List (String × PyVal))
  | .dict kvs => .ok kvs
  | _ => .error .validationError

/-- pydantic validation of an `Optional[str]` field. -/
def asOptStr : PyVal → Except PyErr (Option String)
  | .none => .ok Option.none
  | .str s => .ok (some s)
  | _ => .error .validationError

/-- `models/results.py`: `AudioResult` — a single audio file of a generation. -/
structure AudioResult where
  file : String
  status : Int
  prompt : String
  lyrics : String
  metas : List (String × PyVal)

/-- `models/results.py`: `TaskResult` — parsed result for a single task. -/
structure TaskResult where
  task_id : String
  status : Int
  progress_text : String
  audios : List AudioResult
  error : Option String

/-- `models/results.py`: `TaskSubmission` — response from `POST /release_task`. -/
structure TaskSubmission where
  task_id : String
  status : String
  queue_position : Int

/-- `TaskResult.is_running` (`status == 0`). -/
def TaskResult.is_running (r : TaskResult) : Bool := r.status == 0

/-- `TaskResult.is_succeeded` (`status == 1`). -/
def TaskResult.is_succeeded (r : TaskResult) : Bool := r.status == 1

/-- `TaskResult.is_failed` (`status == 2`). -/
def TaskResult.is_failed (r : TaskResult) : Bool := r.status == 2

/-- Python iteration `for entry in x`: lists yield their elements, strings
their characters, dicts their keys; other values raise `TypeError`. -/
def pyIter : PyVal → Except PyErr (List PyVal)
  | .list xs => .ok xs
  | .str s => .ok (s.data.map fun c => .str (String.mk [c]))
  | .dict kvs => .ok (kvs.map fun kv => .str kv.1)
  | _ => .error .typeError

/-- One loop-body step of `TaskResult.from_api_response`: construct an
`AudioResult` from a dict entry, per-item status falling back to the outer
status, each field going through pydantic validation. -/
def audioResultOfEntry (kvs : List (String × PyVal)) (outerStatus : PyVal) :
    Except PyErr AudioResult := do
  let file ← asStr (pyGetD kvs "file" (.str ""))
  let st ← asInt (pyGetD kvs "status" outerStatus)
  let prompt ← asStr (pyGetD kvs "prompt" (.str ""))
  let lyrics ← asStr (pyGetD kvs "lyrics" (.str ""))
  let metas ← asDictVal (pyGetD kvs "metas" (.dict []))
  .ok ⟨file, st, prompt, lyrics, metas⟩

/-- The `for entry in result_data` loop of `from_api_response`: dict entries
become `AudioResult`s (appended in order) and a truthy `error` field is
captured last-wins; non-dict entries are skipped. -/
def processEntries (outerStatus : PyVal) :
    List PyVal → List AudioResult → Option PyVal →
    Except PyErr (List AudioResult × Option PyVal)
  | [], acc, err => .ok (acc.reverse, err)
  | e :: rest, acc, err =>
    match e with
    | .dict kvs =>
      let err' := if pyTruthy (pyGetD kvs "error" .none) then List.lookup "error" kvs else err
      match audioResultOfEntry kvs outerStatus with
      | .ok ar => processEntries outerStatus rest (ar :: acc) err'
      | .error ex => .error ex
    | _ => processEntries outerStatus rest acc err

/-- The `result` field unpacking of `from_api_response`: default `"[]"`,
strings go through `json.loads` (`decode`) degrading to `[]` on parse
failure, non-list non-string values degrade to `[]`. -/
def resultDataOf (decode : String → Option PyVal)
    (item : List (String × PyVal)) : PyVal :=
  match pyGetD item "result" (.str "[]") with
  | .str s =>
    match decode s with
    | some v => v
    | Option.none => .list []
  | .list xs => .list xs
  | _ => .list []

/-- `TaskResult.from_api_response` (`models/results.py`): parse a single item
of the `/query_result` response.  `item["task_id"]` raises `KeyError` when
absent; `status` defaults to `0`; `progress_text` defaults to `""` and is
replaced by `""` when falsy (the `or ""`); the double-encoded `result` field
is decoded via `decode`; final field types are checked by pydantic at
construction. -/
def from_api_response (decode : String → Option PyVal)
    (item : List (String × PyVal)) : Except PyErr TaskResult := do
  let task_id_v ← match List.lookup "task_id" item with
    | some v => Except.ok v
    | Option.none => Except.error PyErr.keyError
  let status_v := pyGetD item "status" (.int 0)
  let pt0 := pyGetD item "progress_text" (.str "")
  let progress_v := if pyTruthy pt0 then pt0 else .str ""
  let entries ← pyIter (resultDataOf decode item)
  let (audios, errv) ← processEntries status_v entries [] Option.none
  let task_id ← asStr task_id_v
  let status ← asInt status_v
  let progress_text ← asStr progress_v
  let error ← match errv with
    | Option.none => Except.ok Option.none
    | some v => (asStr v).map some
  .ok ⟨task_id, status, progress_text, audios, error⟩

/-! ## `models/params.py` — the Request Model -/

/-- `BPM_MIN` -/
def BPM_MIN : Int := 30

/-- `BPM_MAX` -/
def BPM_MAX : Int := 300

/-- `DURATION_MIN` -/
def DURATION_MIN : ℚ := 10

/-- `DURATION_MAX` -/
def DURATION_MAX : ℚ := 600

/-- `VALID_TIME_SIGNATURES` -/
def VALID_TIME_SIGNATURES : List Int := [2, 3, 4, 6]

/-- `MAX_PROMPT_LENGTH` -/
def MAX_PROMPT_LENGTH : Nat := 1024

/-- `MAX_LYRICS_LENGTH` -/
def MAX_LYRICS_LENGTH : Nat := 4096

/-- `MAX_BATCH_SIZE` -/
def MAX_BATCH_SIZE : Int := 8

/-- `VALID_AUDIO_FORMATS` -/
def VALID_AUDIO_FORMATS : List String := ["mp3", "wav", "flac", "wav32", "opus", "aac"]

/-- `VALID_LANGUAGES` -/
def VALID_LANGUAGES : List String :=
  ["ar", "az", "bg", "bn", "ca", "cs", "da", "de", "el", "en",
   "es", "fa", "fi", "fr", "he", "hi", "hr", "ht", "hu", "id",
   "is", "it", "ja", "ko", "la", "lt", "ms", "ne", "nl", "no",
   "pa", "pl", "pt", "ro", "ru", "sa", "sk", "sr", "sv", "sw",
   "ta", "te", "th", "tl", "tr", "uk", "ur", "vi", "yue", "zh",
   "unknown"]

/-- `KEYSCALE_NOTES` -/
def KEYSCALE_NOTES : List String := ["A", "B", "C", "D", "E", "F", "G"]

/-- `KEYSCALE_ACCIDENTALS` (no accidental, ASCII sharp/flat, unicode sharp/flat). -/
def KEYSCALE_ACCIDENTALS : List String := ["", "#", "b", "♯", "♭"]

/-- `KEYSCALE_MODES` -/
def KEYSCALE_MODES : List String := ["major", "minor"]

/-- `VALID_KEYSCALES`: the cross product `f"{note}{acc} {mode}"` over the
three lists above (the Python code accumulates these into a set; list order
is irrelevant, only membership is used). -/
def VALID_KEYSCALES : List String :=
  KEYSCALE_NOTES.flatMap fun note =>
    KEYSCALE_ACCIDENTALS.flatMap fun acc =>
      KEYSCALE_MODES.map fun mode => note ++ acc ++ " " ++ mode

/-- `GenerationRequest` — the validated generation parameters, fields in
source declaration order. -/
structure GenerationRequest where
  prompt : String
  lyrics : String
  bpm : Option Int
  key_scale : String
  time_signature : String
  vocal_language : String
  audio_duration : Option ℚ
  batch_size : Option Int
  inference_steps : Int
  guidance_scale : ℚ
  seed : Int
  audio_format : String
  task_type : String

/-- `validate_prompt` -/
def validate_prompt (v : String) : Except String String :=
  if v.length > MAX_PROMPT_LENGTH then .error "Prompt too long" else .ok v

/-- `validate_lyrics` -/
def validate_lyrics (v : String) : Except String String :=
  if v.length > MAX_LYRICS_LENGTH then .error "Lyrics too long" else .ok v

/-- `validate_bpm` -/
def validate_bpm (v : Option Int) : Except String (Option Int) :=
  match v with
  | Option.none => .ok Option.none
  | some n =>
    if ¬ (BPM_MIN ≤ n ∧ n ≤ BPM_MAX) then .error "BPM out of range" else .ok (some n)

/-- `validate_duration` -/
def validate_duration (v : Option ℚ) : Except String (Option ℚ) :=
  match v with
  | Option.none => .ok Option.none
  | some q =>
    if ¬ (DURATION_MIN ≤ q ∧ q ≤ DURATION_MAX) then .error "Duration out of range"
    else .ok (some q)

/-- `validate_time_signature`: the empty string (Python-falsy) passes; any
other string must be one of `["2", "3", "4", "6"]` (`str(ts)` over
`VALID_TIME_SIGNATURES`). -/
def validate_time_signature (v : String) : Except String String :=
  if v ≠ "" ∧ v ∉ VALID_TIME_SIGNATURES.map toString then
    .error "Time signature invalid"
  else .ok v

/-- `validate_batch_size` -/
def validate_batch_size (v : Option Int) : Except String (Option Int) :=
  match v with
  | Option.none => .ok Option.none
  | some n =>
    if ¬ (1 ≤ n ∧ n ≤ MAX_BATCH_SIZE) then .error "Batch size out of range"
    else .ok (some n)

/-- `validate_key_scale`: the empty string (Python-falsy) passes; any other
string must be a member of `VALID_KEYSCALES`. -/
def validate_key_scale (v : String) : Except String String :=
  if v ≠ "" ∧ v ∉ VALID_KEYSCALES then .error "Invalid key scale" else .ok v

/-- `validate_vocal_language`: the empty string (Python-falsy) passes; any
other string must be a member of `VALID_LANGUAGES`. -/
def validate_vocal_language (v : String) : Except String String :=
  if v ≠ "" ∧ v ∉ VALID_LANGUAGES then .error "Unsupported language" else .ok v

/-- `validate_audio_format` (no falsy escape: `""` is rejected). -/
def validate_audio_format (v : String) : Except String String :=
  if v ∉ VALID_AUDIO_FORMATS then .error "Format invalid" else .ok v

/-- Constructing a `GenerationRequest` through pydantic: every field
validator must pass (fields without validators pass unconditionally). -/
def mkGenerationRequest (prompt lyrics : String) (bpm : Option Int)
    (key_scale time_signature vocal_language : String) (audio_duration : Option ℚ)
    (batch_size : Option Int) (inference_steps : Int) (guidance_scale : ℚ)
    (seed : Int) (audio_format task_type : String) :
    Except String GenerationRequest := do
  let prompt ← validate_prompt prompt
  let lyrics ← validate_lyrics lyrics
  let bpm ← validate_bpm bpm
  let key_scale ← validate_key_scale key_scale
  let time_signature ← validate_time_signature time_signature
  let vocal_language ← validate_vocal_language vocal_language
  let audio_duration ← validate_duration audio_duration
  let batch_size ← validate_batch_size batch_size
  let audio_format ← validate_audio_format audio_format
  .ok ⟨prompt, lyrics, bpm, key_scale, time_signature, vocal_language,
       audio_duration, batch_size, inference_steps, guidance_scale, seed,
       audio_format, task_type⟩

/-- A `GenerationRequest` is valid iff all field validators accept its
fields (i.e. it could have been produced by `mkGenerationRequest`). -/
def validRequest (r : GenerationRequest) : Bool :=
  (validate_prompt r.prompt).isOk && (validate_lyrics r.lyrics).isOk &&
  (validate_bpm r.bpm).isOk && (validate_key_scale r.key_scale).isOk &&
  (validate_time_signature r.time_signature).isOk &&
  (validate_vocal_language r.vocal_language).isOk &&
  (validate_duration r.audio_duration).isOk &&
  (validate_batch_size r.batch_size).isOk &&
  (validate_audio_format r.audio_format).isOk

/-- `Optional[int]` fields in `model_dump` form. -/
def optIntVal : Option Int → PyVal
  | Option.none => .none
  | some n => .int n

/-- `Optional[float]` fields in `model_dump` form. -/
def optRatVal : Option ℚ → PyVal
  | Option.none => .none
  | some q => .float q

/-- `model_dump()` of a `GenerationRequest`: all 13 fields in declaration
order. -/
def modelDump (r : GenerationRequest) : List (String × PyVal) :=
  [("prompt", .str r.prompt), ("lyrics", .str r.lyrics),
   ("bpm", optIntVal r.bpm), ("key_scale", .str r.key_scale),
   ("time_signature", .str r.time_signature),
   ("vocal_language", .str r.vocal_language),
   ("audio_duration", optRatVal r.audio_duration),
   ("batch_size", optIntVal r.batch_size),
   ("inference_steps", .int r.inference_steps),
   ("guidance_scale", .float r.guidance_scale), ("seed", .int r.seed),
   ("audio_format", .str r.audio_format), ("task_type", .str r.task_type)]

/-- Is the value the `None` sentinel (dropped by `exclude_none=True`)? -/
def isNoneVal : PyVal → Bool
  | .none => true
  | _ => false

/-- Does the value equal the Python empty string (`v != ""` filter)? -/
def isEmptyStrVal : PyVal → Bool
  | .str s => s == ""
  | _ => false

/-- `GenerationRequest.to_api_dict`: `model_dump(exclude_none=True)` followed
by removal of empty-string values. -/
def to_api_dict (r : GenerationRequest) : List (String × PyVal) :=
  ((modelDump r).filter fun kv => !isNoneVal kv.2).filter fun kv => !isEmptyStrVal kv.2

/-- pydantic read of a `str` field from a dict, with its default. -/
def fieldStr (d : List (String × PyVal)) (k : String) (dflt : String) :
    Except String String :=
  match List.lookup k d with
  | some (.str s) => .ok s
  | some _ => .error "type error"
  | Option.none => .ok dflt

/-- pydantic read of an `Optional[int]` field from a dict, with its default. -/
def fieldOptInt (d : List (String × PyVal)) (k : String) (dflt : Option Int) :
    Except String (Option Int) :=
  match List.lookup k d with
  | some (.int n) => .ok (some n)
  | some .none => .ok Option.none
  | some _ => .error "type error"
  | Option.none => .ok dflt

/-- pydantic read of an `Optional[float]` field from a dict, with its default. -/
def fieldOptRat (d : List (String × PyVal)) (k : String) (dflt : Option ℚ) :
    Except String (Option ℚ) :=
  match List.lookup k d with
  | some (.float q) => .ok (some q)
  | some (.int n) => .ok (some (n : ℚ))
  | some .none => .ok Option.none
  | some _ => .error "type error"
  | Option.none => .ok dflt

/-- pydantic read of an `int` field from a dict, with its default. -/
def fieldInt (d : List (String × PyVal)) (k : String) (dflt : Int) :
    Except String Int :=
  match List.lookup k d with
  | some (.int n) => .ok n
  | some _ => .error "type error"
  | Option.none => .ok dflt

/-- pydantic read of a `float` field from a dict, with its default
(an int is coerced to float, as pydantic does for `float` fields). -/
def fieldRat (d : List (String × PyVal)) (k : String) (dflt : ℚ) :
    Except String ℚ :=
  match List.lookup k d with
  | some (.float q) => .ok q
  | some (.int n) => .ok (n : ℚ)
  | some _ => .error "type error"
  | Option.none => .ok dflt

/-- `GenerationRequest(**d)`: re-submitting a dict to the Request Model.
Each field is read by key (its declared default when absent) and passed
through its validator, mirroring pydantic construction from keyword
arguments with the defaults of `models/params.py`. -/
def requestOfDict (d : List (String × PyVal)) : Except String GenerationRequest := do
  let prompt ← fieldStr d "prompt" ""
  let lyrics ← fieldStr d "lyrics" ""
  let bpm ← fieldOptInt d "bpm" Option.none
  let key_scale ← fieldStr d "key_scale" ""
  let time_signature ← fieldStr d "time_signature" ""
  let vocal_language ← fieldStr d "vocal_language" "en"
  let audio_duration ← fieldOptRat d "audio_duration" Option.none
  let batch_size ← fieldOptInt d "batch_size" (some 2)
  let inference_steps ← fieldInt d "inference_steps" 8
  let guidance_scale ← fieldRat d "guidance_scale" 7
  let seed ← fieldInt d "seed" (-1)
  let audio_format ← fieldStr d "audio_format" "mp3"
  let task_type ← fieldStr d "task_type" "text2music"
  mkGenerationRequest prompt lyrics bpm key_scale time_signature vocal_language
    audio_duration batch_size inference_steps guidance_scale seed audio_format
    task_type

/-! ## `gpu.py` — VRAM estimation (floats modelled as exact rationals) -/

/-- Python `int(x)`: truncation toward zero. -/
def pyTrunc (q : ℚ) : Int := if 0 ≤ q then ⌊q⌋ else ⌈q⌉

/-- `_MODEL_BASE_MB` -/
def MODEL_BASE_MB : Int := 4000

/-- `per_sample_mb = 1500 * (duration_seconds / 60)` inside `estimate_vram_mb`. -/
def per_sample_mb (duration_seconds : ℚ) : ℚ := 1500 * (duration_seconds / 60)

/-- `batch_overhead = per_sample_mb + (batch_size - 1) * per_sample_mb * 0.7`
inside `estimate_vram_mb` — the working-memory component of the estimate. -/
def batch_overhead (duration_seconds : ℚ) (batch_size : Int) : ℚ :=
  per_sample_mb duration_seconds +
    ((batch_size : ℚ) - 1) * per_sample_mb duration_seconds * (7 / 10)

/-- `estimate_vram_mb` (`gpu.py`): base model weights plus working memory,
truncated to an integer by Python's `int()`. -/
def estimate_vram_mb (duration_seconds : ℚ) (batch_size : Int) : Int :=
  pyTrunc ((MODEL_BASE_MB : ℚ) + batch_overhead duration_seconds batch_size)

/-! ## `tui/display.py` — file-size formatting -/

/-- Round-half-even at integer precision, as Python's `format(x, '.1f')`
rounds its scaled argument. -/
def roundHalfEven (q : ℚ) : Int :=
  if q - ⌊q⌋ < 1 / 2 then ⌊q⌋
  else if q - ⌊q⌋ > 1 / 2 then ⌊q⌋ + 1
  else if ⌊q⌋ % 2 = 0 then ⌊q⌋ else ⌊q⌋ + 1

/-- Python `f"{x:.1f}"`: the value rendered with exactly one decimal place. -/
def fmtOneDecimal (q : ℚ) : String :=
  let n := roundHalfEven (q * 10)
  let sign := if n < 0 then "-" else ""
  sign ++ toString (n.natAbs / 10) ++ "." ++ toString (n.natAbs % 10)

/-- The `for unit in ("B", "KB", "MB", "GB")` loop of `_format_bytes`:
return at the first unit where `abs(num_bytes) < 1024`, otherwise divide by
1024 and continue; after the loop the unit is `"TB"`. -/
def formatBytesLoop : ℚ → List String → String
  | n, [] => fmtOneDecimal n ++ " TB"
  | n, u :: us => if |n| < 1024 then fmtOneDecimal n ++ " " ++ u else formatBytesLoop (n / 1024) us

/-- `_format_bytes` (`tui/display.py`). -/
def format_bytes (num_bytes : ℚ) : String :=
  formatBytesLoop num_bytes ["B", "KB", "MB", "GB"]

/-! ## `tui/progress.py` — the Poll Loop

Time is modelled by counting sleeps: polls are instantaneous and each sleep
advances the clock by `POLL_INTERVAL`, so at iteration `n` the elapsed time
is `POLL_INTERVAL * n`.  A client is a function `Nat → TaskResult` giving
the result of the n-th poll, and the display (`rich.Live`) is pure output
with no influence on control flow, so it is not modelled. -/

/-- `POLL_INTERVAL` -/
def POLL_INTERVAL : ℚ := 2

/-- `DEFAULT_TIMEOUT` -/
def DEFAULT_TIMEOUT : ℚ := 1800

/-- Outcome of the poll loop: a terminal result returned after a number of
sleeps, or a raised `TimeoutError`. -/
inductive PollOutcome where
  | done (r : TaskResult) (sleeps : Nat)
  | timeoutError
deriving Nonempty

/-- One-step unfolding of the `while True` body of `poll_with_progress`:
raise `TimeoutError` when `elapsed > timeout`, return the result when its
status is non-running, otherwise sleep one interval and loop. -/
def pollAux (poll : Nat → TaskResult) (timeout : ℚ) (n : Nat) : PollOutcome :=
  if POLL_INTERVAL * (n : ℚ) > timeout then .timeoutError
  else if (poll n).status ≠ 0 then .done (poll n) n
  else pollAux poll timeout (n + 1)
termination_by (⌈timeout / POLL_INTERVAL⌉.toNat + 1) - n
decreasing_by
  rename_i hle _
  have h2 : (n : ℚ) ≤ timeout / POLL_INTERVAL := by
    rw [le_div_iff₀ (by norm_num [POLL_INTERVAL] : (0 : ℚ) < POLL_INTERVAL), mul_comm]
    exact not_lt.mp hle
  have h3 : (n : Int) ≤ ⌈timeout / POLL_INTERVAL⌉ := by
    have h4 := Int.ceil_le_ceil h2
    simpa using h4
  omega

/-- `poll_with_progress` (`tui/progress.py`). -/
def poll_with_progress (poll : Nat → TaskResult) (timeout : ℚ) : PollOutcome :=
  pollAux poll timeout 0

/-! ## `client/local.py` and `client/runpod.py` — the client variants

HTTP transport is modelled by its observable pieces: a probe outcome for
`health_check`, an I/O-operation trace plus returned value for the other
operations, and an `Except` error channel for the raised exceptions.  The
`urllib.parse.quote` percent-encoder is embedded at the byte level over the
UTF-8 encoding of the string. -/

/-- Outcome of one `GET /health` probe. -/
inductive ProbeOutcome where
  | success (statusCode : Nat)
  | connectError
  | timeoutException
deriving DecidableEq, Repr

/-- An `httpx` exception escaping a client method. -/
inductive HttpxError where
  | connectError
  | timeoutException
deriving DecidableEq, Repr

/-- `LocalClient.health_check`: `True` on HTTP 200; the `try/except` catches
only `httpx.ConnectError`, so a timeout exception propagates. -/
def localHealthCheck (probe : ProbeOutcome) : Except HttpxError Bool :=
  match probe with
  | .success code => .ok (code == 200)
  | .connectError => .ok false
  | .timeoutException => .error .timeoutException

/-- `RunPodClient.health_check`: `False` when no base URL is resolved
(no request made); otherwise `True` on HTTP 200, with both
`httpx.ConnectError` and `httpx.TimeoutException` caught to `False`. -/
def runpodHealthCheck (base_url : Option String) (probe : ProbeOutcome) :
    Except HttpxError Bool :=
  match base_url with
  | Option.none => .ok false
  | some _ =>
    match probe with
    | .success code => .ok (code == 200)
    | .connectError => .ok false
    | .timeoutException => .ok false

/-- The bytes `urllib.parse.quote` leaves unencoded with `safe=""`:
ASCII letters, digits, and `_ . - ~`. -/
def isAlwaysSafeByte (b : Nat) : Bool :=
  (65 ≤ b && b ≤ 90) || (97 ≤ b && b ≤ 122) || (48 ≤ b && b ≤ 57) ||
    b == 45 || b == 46 || b == 95 || b == 126

/-- Uppercase hex digit of a value below 16. -/
def hexDigit (n : Nat) : Char :=
  if n < 10 then Char.ofNat (48 + n) else Char.ofNat (55 + n)

/-- Percent-encode a single byte: kept verbatim when always-safe, else
`%XX` with uppercase hex. -/
def quoteByte (b : Nat) : String :=
  if isAlwaysSafeByte b then String.mk [Char.ofNat b]
  else String.mk ['%', hexDigit (b / 16), hexDigit (b % 16)]

/-- The UTF-8 bytes of a string. -/
def utf8Bytes (s : String) : List Nat :=
  (s.data.flatMap String.utf8EncodeChar).map UInt8.toNat

/-- `urllib.parse.quote(s, safe="")` / `quote(s, safe="")`:
percent-encode every UTF-8 byte outside the always-safe set. -/
def pyQuote (s : String) : String :=
  String.join ((utf8Bytes s).map quoteByte)

/-- An observable I/O operation performed by a client method.
`mkdirParentsOf p` stands for `Path(p).parent.mkdir(parents=True, exist_ok=True)`. -/
inductive IoOp where
  | httpGet (url : String)
  | httpPost (url : String) (body : List (String × PyVal))
  | mkdirParentsOf (path : String)
  | writeFile (path : String) (content : List Nat)

/-- Errors raised by client methods: the precondition `RuntimeError`
("Pod not ready"), transport-status errors from `raise_for_status`, and the
envelope/validation failures of response parsing. -/
inductive ClientErr where
  | runtimeError (msg : String)
  | httpStatusError (code : Nat)
  | parseError (e : PyErr)
deriving Repr

/-- A (mocked) HTTP response: status code and decoded JSON body. -/
structure HttpResponse where
  status : Nat
  body : PyVal

/-- `Response.raise_for_status()`: pass 2xx through, raise otherwise. -/
def raiseForStatus (resp : HttpResponse) : Except ClientErr Unit :=
  if 200 ≤ resp.status ∧ resp.status < 300 then .ok ()
  else .error (.httpStatusError resp.status)

/-- `_unwrap`: extract the `data` field of the response envelope. -/
def unwrapEnvelope (resp : HttpResponse) : Except ClientErr PyVal :=
  match resp.body with
  | .dict kvs =>
    match List.lookup "data" kvs with
    | some v => .ok v
    | Option.none => .error (.parseError .keyError)
  | _ => .error (.parseError .typeError)

/-- `TaskSubmission.model_validate(data)`: `task_id` required string,
`status` defaulting to `"queued"`, `queue_position` defaulting to `0`. -/
def validateTaskSubmission (data : PyVal) : Except ClientErr TaskSubmission :=
  match data with
  | .dict kvs =>
    match List.lookup "task_id" kvs with
    | some (.str tid) =>
      match pyGetD kvs "status" (.str "queued"), pyGetD kvs "queue_position" (.int 0) with
      | .str st, .int qp => .ok ⟨tid, st, qp⟩
      | _, _ => .error (.parseError .validationError)
    | _ => .error (.parseError .validationError)
  | _ => .error (.parseError .validationError)

/-- `RunPodClient.submit_task`: precondition check on the resolved base URL
before any request, then `POST /release_task` with the canonical payload,
`raise_for_status`, envelope unwrap and `TaskSubmission` validation.  The
first component is the trace of I/O operations performed. -/
def runpodSubmitTask (base_url : Option String) (request : GenerationRequest)
    (resp : HttpResponse) : List IoOp × Except ClientErr TaskSubmission :=
  match base_url with
  | Option.none => ([], .error (.runtimeError "Pod not ready. Call create_pod + wait_for_pod first."))
  | some b =>
    ([.httpPost (b ++ "/release_task") (to_api_dict request)],
      do
        let _ ← raiseForStatus resp
        let data ← unwrapEnvelope resp
        validateTaskSubmission data)

/-- `RunPodClient.poll_result`: precondition check, then `POST /query_result`
with the one-element task-id-list payload, take element 0 of `data` and
normalize it via `TaskResult.from_api_response`. -/
def runpodPollResult (decode : String → Option PyVal) (base_url : Option String)
    (task_id : String) (resp : HttpResponse) :
    List IoOp × Except ClientErr TaskResult :=
  match base_url with
  | Option.none => ([], .error (.runtimeError "Pod not ready."))
  | some b =>
    ([.httpPost (b ++ "/query_result") [("task_id_list", .list [.str task_id])]],
      do
        let _ ← raiseForStatus resp
        let data ← unwrapEnvelope resp
        match data with
        | .list (.dict kvs :: _) => (from_api_response decode kvs).mapError .parseError
        | .list (_ :: _) => .error (.parseError .typeError)
        | .list [] => .error (.parseError .indexError)
        | _ => .error (.parseError .typeError))

/-- `RunPodClient.download_audio`: precondition check, then a streamed
`GET /v1/audio?path=<quoted>`, `raise_for_status`, parent-directory creation,
and a chunked write whose final file content is the concatenation of the
streamed chunks; returns the local path. -/
def runpodDownloadAudio (base_url : Option String) (remote_path local_path : String)
    (status : Nat) (chunks : List (List Nat)) :
    List IoOp × Except ClientErr String :=
  match base_url with
  | Option.none => ([], .error (.runtimeError "Pod not ready."))
  | some b =>
    let url := b ++ "/v1/audio?path=" ++ pyQuote remote_path
    if 200 ≤ status ∧ status < 300 then
      ([.httpGet url, .mkdirParentsOf local_path, .writeFile local_path chunks.flatten],
        .ok local_path)
    else
      ([.httpGet url], .error (.httpStatusError status))

/-- `LocalClient.download_audio`: a streamed `GET /v1/audio?path=<quoted>`,
`raise_for_status`, and a chunked write to the local path (no directory
creation); returns the local path. -/
def localDownloadAudio (remote_path local_path : String) (status : Nat)
    (chunks : List (List Nat)) : List IoOp × Except ClientErr String :=
  let url := "/v1/audio?path=" ++ pyQuote remote_path
  if 200 ≤ status ∧ status < 300 then
    ([.httpGet url, .writeFile local_path chunks.flatten], .ok local_path)
  else
    ([.httpGet url], .error (.httpStatusError status))

/-- Value of an uppercase hex digit. -/
def hexVal (c : Char) : Option Nat :=
  if '0' ≤ c ∧ c ≤ '9' then some (c.toNat - 48)
  else if 'A' ≤ c ∧ c ≤ 'F' then some (c.toNat - 55)
  else Option.none

/-- Decode one percent-encoded byte sequence back to bytes: `%XX` pairs and
verbatim ASCII characters (the left inverse used to state that `pyQuote`
really is a percent-encoding of the path). -/
def percentDecode : List Char → Option (List Nat)
  | [] => some []
  | c :: rest =>
    if c = '%' then
      match rest with
      | h :: l :: rest2 => do
        let hv ← hexVal h
        let lv ← hexVal l
        let tail ← percentDecode rest2
        some ((16 * hv + lv) :: tail)
      | _ => Option.none
    else do
      let tail ← percentDecode rest
      some (c.toNat :: tail)

/-! ## Validator helper lemmas -/

lemma validate_prompt_of_isOk (v : String) (h : (validate_prompt v).isOk = true) :
    validate_prompt v = .ok v := by
  revert h; unfold validate_prompt; split <;> simp [Except.isOk, Except.toBool]

lemma validate_lyrics_of_isOk (v : String) (h : (validate_lyrics v).isOk = true) :
    validate_lyrics v = .ok v := by
  revert h; unfold validate_lyrics; split <;> simp [Except.isOk, Except.toBool]

lemma validate_bpm_of_isOk (v : Option Int) (h : (validate_bpm v).isOk = true) :
    validate_bpm v = .ok v := by
  revert h; unfold validate_bpm
  rcases v with _ | n <;> simp only []
  · intro _; trivial
  · split <;> simp [Except.isOk, Except.toBool]

lemma validate_duration_of_isOk (v : Option ℚ) (h : (validate_duration v).isOk = true) :
    validate_duration v = .ok v := by
  revert h; unfold validate_duration
  rcases v with _ | q <;> simp only []
  · intro _; trivial
  · split <;> simp [Except.isOk, Except.toBool]

lemma validate_batch_size_of_isOk (v : Option Int) (h : (validate_batch_size v).isOk = true) :
    validate_batch_size v = .ok v := by
  revert h; unfold validate_batch_size
  rcases v with _ | n <;> simp only []
  · intro _; trivial
  · split <;> simp [Except.isOk, Except.toBool]

lemma validate_key_scale_of_isOk (v : String) (h : (validate_key_scale v).isOk = true) :
    validate_key_scale v = .ok v := by
  revert h; unfold validate_key_scale; split <;> simp [Except.isOk, Except.toBool]

lemma validate_time_signature_of_isOk (v : String)
    (h : (validate_time_signature v).isOk = true) : validate_time_signature v = .ok v := by
  revert h; unfold validate_time_signature; split <;> simp [Except.isOk, Except.toBool]

lemma validate_vocal_language_of_isOk (v : String)
    (h : (validate_vocal_language v).isOk = true) : validate_vocal_language v = .ok v := by
  revert h; unfold validate_vocal_language; split <;> simp [Except.isOk, Except.toBool]

lemma validate_audio_format_of_isOk (v : String)
    (h : (validate_audio_format v).isOk = true) : validate_audio_format v = .ok v := by
  revert h; unfold validate_audio_format; split <;> simp [Except.isOk, Except.toBool]

lemma audio_format_ne_empty (v : String) (h : (validate_audio_format v).isOk = true) :
    v ≠ "" := by
  revert h; unfold validate_audio_format; split
  · simp [Except.isOk, Except.toBool]
  · rename_i hmem
    intro _ he
    rw [not_not] at hmem
    subst he
    revert hmem
    decide

/-! ## C7 — the key/scale validator accepts exactly the 70-element cross product -/

/-- C7: `validate_key_scale` accepts every string of the form
`{note}{accidental} {mode}` from the cross product of the 7 note letters,
5 accidental markers (none, `#`, `b`, `♯`, `♭`) and 2 modes, rejects every
non-empty string outside `VALID_KEYSCALES`, and that set has exactly 70
distinct elements. -/
theorem C7_key_scale_validator :
    (∀ note ∈ KEYSCALE_NOTES, ∀ acc ∈ KEYSCALE_ACCIDENTALS, ∀ mode ∈ KEYSCALE_MODES,
      validate_key_scale (note ++ acc ++ " " ++ mode) = .ok (note ++ acc ++ " " ++ mode)) ∧
    (∀ s : String, s ≠ "" → s ∉ VALID_KEYSCALES →
      validate_key_scale s = .error "Invalid key scale") ∧
    VALID_KEYSCALES.length = 70 ∧ VALID_KEYSCALES.Nodup := by
  refine ⟨?_, ?_, by decide, by decide⟩
  · intro note hn acc ha mode hm
    have hmem : note ++ acc ++ " " ++ mode ∈ VALID_KEYSCALES := by
      simp only [VALID_KEYSCALES, List.mem_flatMap, List.mem_map]
      exact ⟨note, hn, acc, ha, mode, hm, rfl⟩
    simp [validate_key_scale, hmem]
  · intro s hne hnm
    simp [validate_key_scale, hne, hnm]

/-- Witness for C7: `"F♯ minor"` (unicode sharp) is accepted, `"H major"`
is rejected. -/
theorem C7_witness :
    validate_key_scale "F♯ minor" = .ok "F♯ minor" ∧
    validate_key_scale "H major" = .error "Invalid key scale" := by
  refine ⟨?_, C7_key_scale_validator.2.1 "H major" (by decide) (by decide)⟩
  exact C7_key_scale_validator.1 "F" (by decide) "♯" (by decide) "minor" (by decide)

/-! ## C10 — the empty string is the accepted unset sentinel -/

/-- C10: the `key_scale`, `time_signature` and `vocal_language` validators
all accept the empty string, which belongs to none of the enumerated valid
sets, while every other out-of-set value is rejected. -/
theorem C10_empty_string_sentinel :
    validate_key_scale "" = .ok "" ∧ validate_time_signature "" = .ok "" ∧
    validate_vocal_language "" = .ok "" ∧
    "" ∉ VALID_KEYSCALES ∧ "" ∉ VALID_TIME_SIGNATURES.map toString ∧
    "" ∉ VALID_LANGUAGES ∧
    (∀ s : String, s ≠ "" → s ∉ VALID_KEYSCALES →
      validate_key_scale s = .error "Invalid key scale") ∧
    (∀ s : String, s ≠ "" → s ∉ VALID_TIME_SIGNATURES.map toString →
      validate_time_signature s = .error "Time signature invalid") ∧
    (∀ s : String, s ≠ "" → s ∉ VALID_LANGUAGES →
      validate_vocal_language s = .error "Unsupported language") := by
  refine ⟨rfl, rfl, rfl, by decide, by decide, by decide, ?_, ?_, ?_⟩
  · intro s hne hnm; simp [validate_key_scale, hne, hnm]
  · intro s hne hnm; simp [validate_time_signature, hne, hnm]
  · intro s hne hnm; simp [validate_vocal_language, hne, hnm]

/-- Witness for C10: concrete rejections of out-of-set non-empty values. -/
theorem C10_witness :
    validate_key_scale "C sharp major" = .error "Invalid key scale" ∧
    validate_time_signature "5" = .error "Time signature invalid" ∧
    validate_vocal_language "xx" = .error "Unsupported language" :=
  ⟨C10_empty_string_sentinel.2.2.2.2.2.2.1 "C sharp major" (by decide) (by decide),
   C10_empty_string_sentinel.2.2.2.2.2.2.2.1 "5" (by decide) (by decide),
   C10_empty_string_sentinel.2.2.2.2.2.2.2.2 "xx" (by decide) (by decide)⟩

/-! ## C5 — file-size formatting -/

/-- C5 counterexample: the formatter puts a space between the number and
the unit, so 500 bytes renders as `"500.0 B"`, not `"500.0B"` as claimed. -/
theorem C5_counterexample : format_bytes 500 ≠ "500.0B" := by
  have h : format_bytes 500 = "500.0 B" := by
    norm_num [format_bytes, formatBytesLoop, fmtOneDecimal, roundHalfEven]
    rfl
  rw [h]
  decide

/-- C5 (amended): binary 1024-based units with one decimal place and a
space before the unit, escalating B→KB→MB→GB→TB, the selected unit being
the largest one keeping the magnitude below 1024; 500 bytes formats to
`"500.0 B"`, 2048 to `"2.0 KB"`, 1023 to `"1023.0 B"`. -/
theorem C5_format_bytes :
    format_bytes 500 = "500.0 B" ∧ format_bytes 2048 = "2.0 KB" ∧
    format_bytes 1023 = "1023.0 B" ∧
    (∀ n : ℚ, 0 ≤ n →
      (n < 1024 → format_bytes n = fmtOneDecimal n ++ " B") ∧
      (1024 ≤ n → n < 1024 ^ 2 → format_bytes n = fmtOneDecimal (n / 1024) ++ " KB") ∧
      (1024 ^ 2 ≤ n → n < 1024 ^ 3 →
        format_bytes n = fmtOneDecimal (n / 1024 ^ 2) ++ " MB") ∧
      (1024 ^ 3 ≤ n → n < 1024 ^ 4 →
        format_bytes n = fmtOneDecimal (n / 1024 ^ 3) ++ " GB") ∧
      (1024 ^ 4 ≤ n → format_bytes n = fmtOneDecimal (n / 1024 ^ 4) ++ " TB")) := by
  refine ⟨?_, ?_, ?_, ?_⟩
  · norm_num [format_bytes, formatBytesLoop, fmtOneDecimal, roundHalfEven]; rfl
  · norm_num [format_bytes, formatBytesLoop, fmtOneDecimal, roundHalfEven]; rfl
  · norm_num [format_bytes, formatBytesLoop, fmtOneDecimal, roundHalfEven]; rfl
  intro n hn
  have habs : |n| = n := abs_of_nonneg hn
  refine ⟨?_, ?_, ?_, ?_, ?_⟩
  · intro h1
    simp only [format_bytes, formatBytesLoop]
    rw [if_pos (by rw [habs]; exact h1), String.append_assoc]
    rfl
  · intro h1 h2
    simp only [format_bytes, formatBytesLoop]
    rw [if_neg (by rw [habs]; linarith),
        if_pos (by
          rw [abs_of_nonneg (by positivity), div_lt_iff₀ (by norm_num)]
          nlinarith)]
    rw [String.append_assoc]
    rfl
  · intro h1 h2
    simp only [format_bytes, formatBytesLoop]
    rw [if_neg (by rw [habs]; nlinarith),
        if_neg (by
          rw [abs_of_nonneg (by positivity), not_lt, le_div_iff₀ (by norm_num)]
          nlinarith),
        if_pos (by
          rw [abs_of_nonneg (by positivity), div_lt_iff₀ (by norm_num),
              div_lt_iff₀ (by norm_num)]
          nlinarith)]
    rw [div_div, String.append_assoc]
    norm_num
    rfl
  · intro h1 h2
    simp only [format_bytes, formatBytesLoop]
    rw [if_neg (by rw [habs]; nlinarith),
        if_neg (by
          rw [abs_of_nonneg (by positivity), not_lt, le_div_iff₀ (by norm_num)]
          nlinarith),
        if_neg (by
          rw [abs_of_nonneg (by positivity), not_lt, le_div_iff₀ (by norm_num),
              le_div_iff₀ (by norm_num)]
          nlinarith),
        if_pos (by
          rw [abs_of_nonneg (by positivity), div_lt_iff₀ (by norm_num),
              div_lt_iff₀ (by norm_num), div_lt_iff₀ (by norm_num)]
          nlinarith)]
    rw [div_div, div_div, String.append_assoc]
    norm_num
    rfl
  · intro h1
    simp only [format_bytes, formatBytesLoop]
    rw [if_neg (by rw [habs]; nlinarith),
        if_neg (by
          rw [abs_of_nonneg (by positivity), not_lt, le_div_iff₀ (by norm_num)]
          nlinarith),
        if_neg (by
          rw [abs_of_nonneg (by positivity), not_lt, le_div_iff₀ (by norm_num),
              le_div_iff₀ (by norm_num)]
          nlinarith),
        if_neg (by
          rw [abs_of_nonneg (by positivity), not_lt, le_div_iff₀ (by norm_num),
              le_div_iff₀ (by norm_num), le_div_iff₀ (by norm_num)]
          nlinarith)]
    rw [div_div, div_div, div_div]
    norm_num

/-- Witness for C5: the unit-selection clause applied at 2048 bytes. -/
theorem C5_witness :
    (0 : ℚ) ≤ 2048 ∧ (1024 : ℚ) ≤ 2048 ∧ (2048 : ℚ) < 1024 ^ 2 ∧
    format_bytes 2048 = fmtOneDecimal (2048 / 1024) ++ " KB" :=
  ⟨by norm_num, by norm_num, by norm_num,
   (C5_format_bytes.2.2.2 2048 (by norm_num)).2.1 (by norm_num) (by norm_num)⟩

/-! ## C9 — VRAM estimate monotonicity and sub-linear batch cost -/

lemma batch_overhead_eq (d : ℚ) (b : Int) :
    batch_overhead d b = 25 * d * (3 / 10 + (7 / 10) * (b : ℚ)) := by
  unfold batch_overhead per_sample_mb
  ring

lemma batch_overhead_nonneg (d : ℚ) (b : Int) (hd : 0 ≤ d) (hb : 1 ≤ b) :
    0 ≤ batch_overhead d b := by
  rw [batch_overhead_eq]
  have hb' : (1 : ℚ) ≤ (b : ℚ) := by exact_mod_cast hb
  nlinarith

lemma estimate_vram_mb_floor (d : ℚ) (b : Int) (hd : 0 ≤ d) (hb : 1 ≤ b) :
    estimate_vram_mb d b = 4000 + ⌊batch_overhead d b⌋ := by
  unfold estimate_vram_mb pyTrunc MODEL_BASE_MB
  have h0 : (0 : ℚ) ≤ ((4000 : Int) : ℚ) + batch_overhead d b := by
    have := batch_overhead_nonneg d b hd hb
    push_cast
    linarith
  rw [if_pos h0, Int.floor_int_add]

/-- C9 counterexample: at the positive duration `1/50` (0.02 s) and batch
size 1, doubling the batch size leaves the working-memory component of the
integer estimate unchanged at 0, which is not a strict increase by less
than a factor of 2 (`0 < 2 * 0` fails). -/
theorem C9_counterexample :
    (0 : ℚ) < 1 / 50 ∧ (1 : Int) ≤ 1 ∧
    estimate_vram_mb (1 / 50) 1 - MODEL_BASE_MB = 0 ∧
    estimate_vram_mb (1 / 50) 2 - MODEL_BASE_MB = 0 ∧
    ¬ (estimate_vram_mb (1 / 50) 2 - MODEL_BASE_MB <
        2 * (estimate_vram_mb (1 / 50) 1 - MODEL_BASE_MB)) := by
  refine ⟨by norm_num, le_refl 1, ?_, ?_, ?_⟩ <;>
    norm_num [estimate_vram_mb, pyTrunc, batch_overhead, per_sample_mb, MODEL_BASE_MB]

/-- C9 (amended): for positive durations and batch sizes ≥ 1 the estimate is
monotonically non-decreasing in both arguments, and doubling the batch size
multiplies the real-valued working-memory component (`batch_overhead`, the
estimate's pre-truncation excess over the model-base constant) by strictly
less than 2; for the truncated integer working component the strict bound
holds whenever the duration is at least the request model's 10-second
minimum (it fails for arbitrarily small positive durations, see the
counterexample). -/
theorem C9_vram_estimate (d d' : ℚ) (b b' : Int) (hd : 0 < d) (hdd : d ≤ d')
    (hb : 1 ≤ b) (hbb : b ≤ b') :
    estimate_vram_mb d b ≤ estimate_vram_mb d' b' ∧
    batch_overhead d (2 * b) < 2 * batch_overhead d b ∧
    (10 ≤ d → estimate_vram_mb d (2 * b) - MODEL_BASE_MB <
      2 * (estimate_vram_mb d b - MODEL_BASE_MB)) := by
  have hb' : (1 : ℚ) ≤ (b : ℚ) := by exact_mod_cast hb
  have hbb' : (b : ℚ) ≤ (b' : ℚ) := by exact_mod_cast hbb
  refine ⟨?_, ?_, ?_⟩
  · rw [estimate_vram_mb_floor d b hd.le hb,
        estimate_vram_mb_floor d' b' (hd.le.trans hdd) (hb.trans hbb)]
    have hmono : batch_overhead d b ≤ batch_overhead d' b' := by
      rw [batch_overhead_eq, batch_overhead_eq]
      nlinarith
    exact add_le_add_left (Int.floor_le_floor hmono) 4000
  · rw [batch_overhead_eq, batch_overhead_eq]
    push_cast
    nlinarith
  · intro hd10
    have hb2 : 1 ≤ 2 * b := by omega
    rw [estimate_vram_mb_floor d b hd.le hb, estimate_vram_mb_floor d (2 * b) hd.le hb2,
        MODEL_BASE_MB]
    have hgap : batch_overhead d (2 * b) ≤ 2 * batch_overhead d b - 75 := by
      rw [batch_overhead_eq, batch_overhead_eq]
      push_cast
      nlinarith
    have h1 : (⌊batch_overhead d (2 * b)⌋ : ℚ) ≤ batch_overhead d (2 * b) :=
      Int.floor_le _
    have h2 : batch_overhead d b < (⌊batch_overhead d b⌋ : ℚ) + 1 :=
      Int.lt_floor_add_one _
    have : (⌊batch_overhead d (2 * b)⌋ : ℚ) < 2 * (⌊batch_overhead d b⌋ : ℚ) := by
      linarith
    have hfin : ⌊batch_overhead d (2 * b)⌋ < 2 * ⌊batch_overhead d b⌋ := by
      exact_mod_cast this
    omega

/-- Witness for C9 at duration 60 s → 120 s and batch size 1 → 2. -/
theorem C9_witness :
    (0 : ℚ) < 60 ∧ (60 : ℚ) ≤ 120 ∧ (1 : Int) ≤ 1 ∧ (1 : Int) ≤ 2 ∧
    (estimate_vram_mb 60 1 ≤ estimate_vram_mb 120 2 ∧
      batch_overhead 60 (2 * 1) < 2 * batch_overhead 60 1 ∧
      (10 ≤ (60 : ℚ) → estimate_vram_mb 60 (2 * 1) - MODEL_BASE_MB <
        2 * (estimate_vram_mb 60 1 - MODEL_BASE_MB))) :=
  ⟨by norm_num, by norm_num, le_refl 1, by norm_num,
   C9_vram_estimate 60 120 1 2 (by norm_num) (by norm_num) (le_refl 1) (by norm_num)⟩

/-! ## C2 — health_check behavior on the two client variants -/

/-- C2 counterexample: on the local client a probe timeout is not caught
(the `except` clause lists only `httpx.ConnectError`), so `health_check`
raises instead of returning `False`, refuting the claim that every
connection-level failure yields `false` without raising on both variants. -/
theorem C2_counterexample :
    localHealthCheck ProbeOutcome.timeoutException =
      Except.error HttpxError.timeoutException := rfl

/-- C2 (amended): both variants return `true` exactly when the probe
returns HTTP 200; connection-refused failures yield `false` on both; a
timeout yields `false` on the runpod variant but propagates as an exception
on the local variant; the runpod variant also yields `false` without
probing when no base URL is resolved. -/
theorem C2_health_check :
    (∀ p, localHealthCheck p = .ok true ↔ p = .success 200) ∧
    localHealthCheck .connectError = .ok false ∧
    localHealthCheck .timeoutException = .error .timeoutException ∧
    (∀ u p, runpodHealthCheck (some u) p = .ok true ↔ p = .success 200) ∧
    (∀ u, runpodHealthCheck (some u) .connectError = .ok false) ∧
    (∀ u, runpodHealthCheck (some u) .timeoutException = .ok false) ∧
    (∀ p, runpodHealthCheck Option.none p = .ok false) := by
  refine ⟨?_, rfl, rfl, ?_, fun _ => rfl, fun _ => rfl, fun _ => rfl⟩
  · intro p
    cases p with
    | success code => simp [localHealthCheck]
    | connectError => simp [localHealthCheck]
    | timeoutException => simp [localHealthCheck]
  · intro u p
    cases p with
    | success code => simp [runpodHealthCheck]
    | connectError => simp [runpodHealthCheck]
    | timeoutException => simp [runpodHealthCheck]

/-- Witness for C2: the 200-iff clauses instantiated at a concrete probe. -/
theorem C2_witness :
    localHealthCheck (.success 200) = .ok true ∧
    runpodHealthCheck (some "http://h") (.success 200) = .ok true ∧
    localHealthCheck (.success 503) ≠ .ok true :=
  ⟨(C2_health_check.1 (.success 200)).mpr rfl,
   (C2_health_check.2.2.2.1 "http://h" (.success 200)).mpr rfl,
   fun h => by simpa using (C2_health_check.1 (.success 503)).mp h⟩

/-! ## C8 — precondition error before the pod endpoint is resolved -/

/-- C8: on the runpod client, `submit_task`, `poll_result` and
`download_audio` invoked with no resolved base URL perform no I/O operation
(empty trace — no network request) and raise the precondition
`RuntimeError`, a constructor distinct from the transport
`httpStatusError`. -/
theorem C8_precondition_error :
    (∀ req resp, runpodSubmitTask Option.none req resp =
      ([], .error (.runtimeError "Pod not ready. Call create_pod + wait_for_pod first."))) ∧
    (∀ decode task_id resp, runpodPollResult decode Option.none task_id resp =
      ([], .error (.runtimeError "Pod not ready."))) ∧
    (∀ r p st chunks, runpodDownloadAudio Option.none r p st chunks =
      ([], .error (.runtimeError "Pod not ready."))) ∧
    (∀ msg code, ClientErr.runtimeError msg ≠ ClientErr.httpStatusError code) :=
  ⟨fun _ _ => rfl, fun _ _ _ => rfl, fun _ _ _ _ => rfl,
   fun _ _ h => ClientErr.noConfusion h⟩

/-! ## C3 — the Poll Loop -/

lemma pollAux_unfold (poll : Nat → TaskResult) (timeout : ℚ) (n : Nat) :
    pollAux poll timeout n =
      if POLL_INTERVAL * (n : ℚ) > timeout then .timeoutError
      else if (poll n).status ≠ 0 then .done (poll n) n
      else pollAux poll timeout (n + 1) := by
  rw [pollAux]

lemma pollAux_done_of_running_then_succeeded (poll : Nat → TaskResult)
    (timeout : ℚ) (N : Nat) (hrun : ∀ k, k < N → (poll k).status = 0)
    (hsucc : (poll N).status = 1)
    (hbudget : POLL_INTERVAL * (N : ℚ) ≤ timeout) :
    ∀ m n, n + m = N → pollAux poll timeout n = .done (poll N) N := by
  intro m
  induction m with
  | zero =>
    intro n hn
    have hn' : n = N := by omega
    subst hn'
    rw [pollAux_unfold, if_neg (not_lt.mpr hbudget), if_pos (by rw [hsucc]; decide)]
  | succ m ih =>
    intro n hn
    have hlt : n < N := by omega
    have hnb : POLL_INTERVAL * (n : ℚ) ≤ timeout := by
      have : (n : ℚ) ≤ (N : ℚ) := by exact_mod_cast hlt.le
      calc POLL_INTERVAL * (n : ℚ) ≤ POLL_INTERVAL * (N : ℚ) := by
            unfold POLL_INTERVAL
            linarith
        _ ≤ timeout := hbudget
    rw [pollAux_unfold, if_neg (not_lt.mpr hnb),
        if_neg (by rw [hrun n hlt]; decide)]
    exact ih (n + 1) (by omega)

lemma pollAux_timeout_of_always_running (poll : Nat → TaskResult) (timeout : ℚ)
    (hrun : ∀ k, (poll k).status = 0) :
    ∀ f n, (⌈timeout / POLL_INTERVAL⌉.toNat + 2) - n ≤ f →
      pollAux poll timeout n = .timeoutError := by
  intro f
  induction f with
  | zero =>
    intro n hn
    have hbig : POLL_INTERVAL * (n : ℚ) > timeout := by
      have h1 : (⌈timeout / POLL_INTERVAL⌉.toNat : Nat) + 2 ≤ n := by omega
      have h2 : timeout / POLL_INTERVAL ≤ (⌈timeout / POLL_INTERVAL⌉ : ℚ) := Int.le_ceil _
      have h3 : (⌈timeout / POLL_INTERVAL⌉ : ℚ) ≤ (⌈timeout / POLL_INTERVAL⌉.toNat : ℚ) := by
        exact_mod_cast Int.self_le_toNat _
      have h4 : (⌈timeout / POLL_INTERVAL⌉.toNat : ℚ) + 2 ≤ (n : ℚ) := by
        exact_mod_cast h1
      have h5 : timeout / POLL_INTERVAL < (n : ℚ) := by linarith
      rw [gt_iff_lt, ← div_lt_iff₀' (by norm_num [POLL_INTERVAL] : (0 : ℚ) < POLL_INTERVAL)]
      exact h5
    rw [pollAux_unfold, if_pos hbig]
  | succ f ih =>
    intro n hn
    rw [pollAux_unfold]
    by_cases htime : POLL_INTERVAL * (n : ℚ) > timeout
    · rw [if_pos htime]
    · rw [if_neg htime, if_neg (by rw [hrun n]; decide)]
      refine ih (n + 1) ?_
      have h2 : (n : ℚ) ≤ timeout / POLL_INTERVAL := by
        rw [le_div_iff₀ (by norm_num [POLL_INTERVAL] : (0 : ℚ) < POLL_INTERVAL), mul_comm]
        exact not_lt.mp htime
      have h3 : (n : Int) ≤ ⌈timeout / POLL_INTERVAL⌉ := by
        have h4 := Int.ceil_le_ceil h2
        simpa using h4
      omega

/-- C3: if a client's `poll_result` reports running status for the first `N`
polls and succeeded status on poll `N`, and `N` poll intervals fit within
the timeout budget, `poll_with_progress` returns that succeeded result
after exactly `N` sleeps; and for a client that never leaves running
status, `poll_with_progress` raises `TimeoutError` once the elapsed time
exceeds the budget.  (Time is modelled by the fixed-interval sleeps, polls
being instantaneous.) -/
theorem C3_poll_loop :
    (∀ (poll : Nat → TaskResult) (timeout : ℚ) (N : Nat),
      (∀ k, k < N → (poll k).status = 0) → (poll N).status = 1 →
      POLL_INTERVAL * (N : ℚ) ≤ timeout →
      poll_with_progress poll timeout = .done (poll N) N) ∧
    (∀ (poll : Nat → TaskResult) (timeout : ℚ),
      (∀ k, (poll k).status = 0) →
      poll_with_progress poll timeout = .timeoutError) := by
  constructor
  · intro poll timeout N hrun hsucc hbudget
    exact pollAux_done_of_running_then_succeeded poll timeout N hrun hsucc hbudget N 0
      (by omega)
  · intro poll timeout hrun
    exact pollAux_timeout_of_always_running poll timeout hrun
      (⌈timeout / POLL_INTERVAL⌉.toNat + 2) 0 (by omega)

/-- Witness for C3: a fake client running for 2 polls then succeeding, under
a 10-second budget, returns the succeeded result after exactly 2 sleeps; a
never-transitioning client under a 5-second budget times out. -/
theorem C3_witness :
    poll_with_progress
        (fun k => if k < 2 then ⟨"t", 0, "", [], Option.none⟩
                  else ⟨"t", 1, "", [], Option.none⟩) 10 =
      .done ⟨"t", 1, "", [], Option.none⟩ 2 ∧
    poll_with_progress (fun _ => ⟨"t", 0, "", [], Option.none⟩) 5 = .timeoutError := by
  constructor
  · have h := C3_poll_loop.1
      (fun k => if k < 2 then ⟨"t", 0, "", [], Option.none⟩
                else ⟨"t", 1, "", [], Option.none⟩) 10 2
      (fun k hk => by simp [hk]) (by norm_num) (by norm_num [POLL_INTERVAL])
    simpa using h
  · exact C3_poll_loop.2 (fun _ => ⟨"t", 0, "", [], Option.none⟩) 5 (fun _ => rfl)

/-! ## C4 — download_audio: streaming, parent directories, percent-encoding -/

/-- Is an I/O operation a parent-directory creation? -/
def isMkdirOp : IoOp → Bool
  | .mkdirParentsOf _ => true
  | _ => false

lemma hexVal_hexDigit (n : Nat) (hn : n < 16) : hexVal (hexDigit n) = some n := by
  have h : ∀ m, m < 16 → hexVal (hexDigit m) = some m := by decide
  exact h n hn

set_option maxRecDepth 4000 in
lemma safe_byte_char (b : Nat) (hb : b < 256) (hs : isAlwaysSafeByte b = true) :
    Char.ofNat b ≠ '%' ∧ (Char.ofNat b).toNat = b := by
  have h : ∀ m, m < 256 → isAlwaysSafeByte m = true →
      Char.ofNat m ≠ '%' ∧ (Char.ofNat m).toNat = m := by decide
  exact h b hb hs

lemma percentDecode_cons_of_ne (c : Char) (rest : List Char) (hc : c ≠ '%') :
    percentDecode (c :: rest) = (percentDecode rest).map fun t => c.toNat :: t := by
  rw [percentDecode.eq_def]
  simp only [if_neg hc]
  cases percentDecode rest <;> rfl

lemma percentDecode_escape (h l : Char) (rest2 : List Char) :
    percentDecode ('%' :: h :: l :: rest2) =
      (hexVal h).bind fun hv => (hexVal l).bind fun lv =>
        (percentDecode rest2).map fun t => (16 * hv + lv) :: t := by
  rw [percentDecode.eq_def]
  simp only [if_pos rfl]
  cases hexVal h <;> cases hexVal l <;> cases percentDecode rest2 <;> rfl

lemma percentDecode_quoteByte_append (b : Nat) (hb : b < 256) (cs : List Char) :
    percentDecode ((quoteByte b).data ++ cs) =
      (percentDecode cs).map fun t => b :: t := by
  unfold quoteByte
  by_cases hs : isAlwaysSafeByte b = true
  · obtain ⟨hne, htn⟩ := safe_byte_char b hb hs
    rw [if_pos hs]
    show percentDecode (Char.ofNat b :: cs) = _
    rw [percentDecode_cons_of_ne _ _ hne, htn]
  · rw [if_neg hs]
    show percentDecode ('%' :: hexDigit (b / 16) :: hexDigit (b % 16) :: cs) = _
    rw [percentDecode_escape]
    have h16 : b / 16 < 16 := by omega
    have h16' : b % 16 < 16 := by omega
    rw [hexVal_hexDigit _ h16, hexVal_hexDigit _ h16']
    have hb16 : 16 * (b / 16) + b % 16 = b := Nat.div_add_mod b 16
    cases percentDecode cs <;> simp [hb16]

lemma percentDecode_quoteBytes (bs : List Nat) (hb : ∀ b ∈ bs, b < 256) :
    percentDecode ((bs.map quoteByte).map String.data).flatten = some bs := by
  induction bs with
  | nil => rfl
  | cons b rest ih =>
    simp only [List.map_cons, List.flatten_cons]
    rw [percentDecode_quoteByte_append b (hb b (List.mem_cons_self b rest)),
        ih fun x hx => hb x (List.mem_cons_of_mem b hx)]
    rfl

lemma utf8Bytes_lt_256 (s : String) : ∀ b ∈ utf8Bytes s, b < 256 := by
  intro b hb
  unfold utf8Bytes at hb
  obtain ⟨x, _, hx⟩ := List.mem_map.mp hb
  exact hx ▸ UInt8.toNat_lt_size x

/-- The percent-encoder really encodes the UTF-8 bytes of its argument:
decoding its output recovers them exactly. -/
lemma percentDecode_pyQuote (s : String) :
    percentDecode (pyQuote s).data = some (utf8Bytes s) := by
  unfold pyQuote
  rw [String.data_join]
  exact percentDecode_quoteBytes (utf8Bytes s) (utf8Bytes_lt_256 s)

/-- C4 counterexample: the local client's download trace contains no
parent-directory creation (every operation fails `isMkdirOp`), refuting the
claim that both variants create the local path's parent directories. -/
theorem C4_counterexample :
    (localDownloadAudio "/out/song_0.mp3" "/tmp/nested/dir/song_0.mp3" 200
        [[255, 251]]).1.all (fun op => !isMkdirOp op) = true := rfl

/-- C4 (amended): on a 2xx response both variants stream the chunked body to
the local path (the written content is the concatenation of the chunks),
place the percent-encoded remote path in the query string (the encoding
decodes back to the remote path's UTF-8 bytes), and return the local path;
only the runpod variant creates the local path's parent directories — the
local variant performs no directory creation. -/
theorem C4_download_audio :
    (∀ r p st chunks, 200 ≤ st → st < 300 →
      localDownloadAudio r p st chunks =
        ([.httpGet ("/v1/audio?path=" ++ pyQuote r), .writeFile p chunks.flatten],
          .ok p)) ∧
    (∀ b r p st chunks, 200 ≤ st → st < 300 →
      runpodDownloadAudio (some b) r p st chunks =
        ([.httpGet (b ++ "/v1/audio?path=" ++ pyQuote r), .mkdirParentsOf p,
          .writeFile p chunks.flatten], .ok p)) ∧
    (∀ r p st chunks,
      (localDownloadAudio r p st chunks).1.all (fun op => !isMkdirOp op) = true) ∧
    (∀ s, percentDecode (pyQuote s).data = some (utf8Bytes s)) := by
  refine ⟨?_, ?_, ?_, percentDecode_pyQuote⟩
  · intro r p st chunks h1 h2
    unfold localDownloadAudio
    rw [if_pos ⟨h1, h2⟩]
  · intro b r p st chunks h1 h2
    unfold runpodDownloadAudio
    simp only []
    rw [if_pos ⟨h1, h2⟩]
  · intro r p st chunks
    unfold localDownloadAudio
    split <;> rfl

/-- Witness for C4 at a concrete remote path with a space and slashes. -/
theorem C4_witness :
    localDownloadAudio "/output/song 0.mp3" "/tmp/song.mp3" 200 [[1, 2], [3]] =
      ([.httpGet ("/v1/audio?path=" ++ pyQuote "/output/song 0.mp3"),
        .writeFile "/tmp/song.mp3" [1, 2, 3]], .ok "/tmp/song.mp3") ∧
    runpodDownloadAudio (some "https://pod-8001.proxy.runpod.net")
        "/output/song 0.mp3" "/tmp/song.mp3" 200 [[1, 2], [3]] =
      ([.httpGet ("https://pod-8001.proxy.runpod.net/v1/audio?path=" ++
          pyQuote "/output/song 0.mp3"),
        .mkdirParentsOf "/tmp/song.mp3",
        .writeFile "/tmp/song.mp3" [1, 2, 3]], .ok "/tmp/song.mp3") :=
  ⟨C4_download_audio.1 "/output/song 0.mp3" "/tmp/song.mp3" 200 [[1, 2], [3]]
      (by norm_num) (by norm_num),
   C4_download_audio.2.1 "https://pod-8001.proxy.runpod.net" "/output/song 0.mp3"
      "/tmp/song.mp3" 200 [[1, 2], [3]] (by norm_num) (by norm_num)⟩

/-! ## C1 — totality boundary of the Result Normalizer -/

/-- Is the value a Python `str`? -/
def isStrVal : PyVal → Bool
  | .str _ => true
  | _ => false

/-- Is the value a Python `int`? -/
def isIntVal : PyVal → Bool
  | .int _ => true
  | _ => false

/-- Is the value a Python `dict`? -/
def isDictValB : PyVal → Bool
  | .dict _ => true
  | _ => false

/-- Is the optional value present with a `str` payload? -/
def isSomeStr : Option PyVal → Bool
  | some (.str _) => true
  | _ => false

/-- Is an accumulated `error` value absent or a `str` (so that the final
`Optional[str]` validation of `TaskResult.error` accepts it)? -/
def errOkVal : Option PyVal → Bool
  | Option.none => true
  | some (.str _) => true
  | some _ => false

/-- A decoded `result` entry is well typed for `AudioResult` construction:
non-dicts are always fine (they are skipped); dict entries need a string
`file`/`prompt`/`lyrics`, an integer `status` (falling back to the outer
status), a dict `metas`, and any truthy `error` value must be a string. -/
def wfEntryVal (outerStatus : PyVal) : PyVal → Bool
  | .dict kvs =>
    isStrVal (pyGetD kvs "file" (.str "")) &&
    isIntVal (pyGetD kvs "status" outerStatus) &&
    isStrVal (pyGetD kvs "prompt" (.str "")) &&
    isStrVal (pyGetD kvs "lyrics" (.str "")) &&
    isDictValB (pyGetD kvs "metas" (.dict [])) &&
    (!pyTruthy (pyGetD kvs "error" .none) || errOkVal (List.lookup "error" kvs))
  | _ => true

/-- The well-formedness boundary within which `from_api_response` is total:
`task_id` present with a string value, an integer (or absent) `status`, a
string (or falsy, or absent) `progress_text`, and a `result` field whose
processed value is iterable with well-typed dict entries. -/
def wellFormedItem (decode : String → Option PyVal)
    (item : List (String × PyVal)) : Bool :=
  isSomeStr (List.lookup "task_id" item) &&
  isIntVal (pyGetD item "status" (.int 0)) &&
  (!pyTruthy (pyGetD item "progress_text" (.str "")) ||
    isStrVal (pyGetD item "progress_text" (.str ""))) &&
  (match pyIter (resultDataOf decode item) with
   | .ok es => es.all (wfEntryVal (pyGetD item "status" (.int 0)))
   | .error _ => false)

lemma exists_of_isStrVal (v : PyVal) (h : isStrVal v = true) : ∃ s, v = .str s := by
  cases v <;> simp_all [isStrVal]

lemma exists_of_isIntVal (v : PyVal) (h : isIntVal v = true) : ∃ n, v = .int n := by
  cases v <;> simp_all [isIntVal]

lemma exists_of_isDictValB (v : PyVal) (h : isDictValB v = true) :
    ∃ kvs, v = .dict kvs := by
  cases v <;> simp_all [isDictValB]

lemma exists_of_isSomeStr (o : Option PyVal) (h : isSomeStr o = true) :
    ∃ s, o = some (.str s) := by
  rcases o with _ | v
  · simp [isSomeStr] at h
  · cases v <;> simp_all [isSomeStr]

lemma audioResultOfEntry_ok (kvs : List (String × PyVal)) (outer : PyVal)
    (h : wfEntryVal outer (.dict kvs) = true) :
    ∃ ar, audioResultOfEntry kvs outer = .ok ar := by
  simp only [wfEntryVal, Bool.and_eq_true] at h
  obtain ⟨⟨⟨⟨⟨h1, h2⟩, h3⟩, h4⟩, h5⟩, _⟩ := h
  obtain ⟨fs, hf⟩ := exists_of_isStrVal _ h1
  obtain ⟨st, hs⟩ := exists_of_isIntVal _ h2
  obtain ⟨ps, hp⟩ := exists_of_isStrVal _ h3
  obtain ⟨ls, hl⟩ := exists_of_isStrVal _ h4
  obtain ⟨ms, hm⟩ := exists_of_isDictValB _ h5
  unfold audioResultOfEntry
  rw [hf, hs, hp, hl, hm]
  exact ⟨_, rfl⟩

lemma processEntries_ok (outer : PyVal) :
    ∀ (es : List PyVal) (acc : List AudioResult) (err : Option PyVal),
      es.all (wfEntryVal outer) = true → errOkVal err = true →
      ∃ audios errv, processEntries outer es acc err = .ok (audios, errv) ∧
        errOkVal errv = true := by
  intro es
  induction es with
  | nil => exact fun acc err _ herr => ⟨acc.reverse, err, rfl, herr⟩
  | cons e rest ih =>
    intro acc err hall herr
    rw [List.all_cons, Bool.and_eq_true] at hall
    obtain ⟨he, hrest⟩ := hall
    cases e with
    | dict kvs =>
      obtain ⟨ar, har⟩ := audioResultOfEntry_ok kvs outer he
      have herr' : errOkVal (if pyTruthy (pyGetD kvs "error" .none)
          then List.lookup "error" kvs else err) = true := by
        by_cases htr : pyTruthy (pyGetD kvs "error" .none) = true
        · rw [if_pos htr]
          simp only [wfEntryVal, Bool.and_eq_true, Bool.or_eq_true] at he
          rcases he.2 with hfalse | hok
          · rw [htr] at hfalse; simp at hfalse
          · exact hok
        · rw [if_neg htr]; exact herr
      obtain ⟨audios, errv, hpe, herrv⟩ := ih (ar :: acc) _ hrest herr'
      refine ⟨audios, errv, ?_, herrv⟩
      rw [processEntries, har]
      exact hpe
    | none =>
      rw [show processEntries outer (PyVal.none :: rest) acc err =
          processEntries outer rest acc err from rfl]
      exact ih acc err hrest herr
    | bool b =>
      rw [show processEntries outer (PyVal.bool b :: rest) acc err =
          processEntries outer rest acc err from rfl]
      exact ih acc err hrest herr
    | int n =>
      rw [show processEntries outer (PyVal.int n :: rest) acc err =
          processEntries outer rest acc err from rfl]
      exact ih acc err hrest herr
    | float q =>
      rw [show processEntries outer (PyVal.float q :: rest) acc err =
          processEntries outer rest acc err from rfl]
      exact ih acc err hrest herr
    | str s =>
      rw [show processEntries outer (PyVal.str s :: rest) acc err =
          processEntries outer rest acc err from rfl]
      exact ih acc err hrest herr
    | list xs =>
      rw [show processEntries outer (PyVal.list xs :: rest) acc err =
          processEntries outer rest acc err from rfl]
      exact ih acc err hrest herr

lemma from_api_response_ok_of_wf (decode : String → Option PyVal)
    (item : List (String × PyVal)) (h : wellFormedItem decode item = true) :
    (from_api_response decode item).isOk = true := by
  simp only [wellFormedItem, Bool.and_eq_true] at h
  obtain ⟨⟨⟨h1, h2⟩, h3⟩, h4⟩ := h
  obtain ⟨tid, htid⟩ := exists_of_isSomeStr _ h1
  obtain ⟨st, hst⟩ := exists_of_isIntVal _ h2
  rcases hit : pyIter (resultDataOf decode item) with e | es
  · rw [hit] at h4; simp at h4
  rw [hit, hst] at h4
  obtain ⟨audios, errv, hpe, herrv⟩ :=
    processEntries_ok (.int st) es [] Option.none h4 rfl
  have hbind : ∀ {α β : Type} (a : α) (f : α → Except PyErr β),
      (Except.ok a >>= f) = f a := fun _ _ => rfl
  have herrv' : errv = Option.none ∨ ∃ s, errv = some (.str s) := by
    rcases errv with _ | ev
    · exact Or.inl rfl
    · cases ev <;> simp_all [errOkVal]
  by_cases htr : pyTruthy (pyGetD item "progress_text" (.str "")) = true
  · rw [Bool.or_eq_true] at h3
    rcases h3 with hfalse | hok
    · rw [htr] at hfalse; simp at hfalse
    obtain ⟨ps, hps⟩ := exists_of_isStrVal _ hok
    rw [hps] at htr
    rcases herrv' with hn | ⟨es', hes'⟩ <;> subst_vars <;>
      · simp only [from_api_response, htid, hst, hit, hpe, hps, hbind, htr,
          eq_self_iff_true, if_true, asStr, asInt, Except.map]
        rfl
  · have htr' : pyTruthy (pyGetD item "progress_text" (.str "")) = false :=
      Bool.not_eq_true _ ▸ htr
    rcases herrv' with hn | ⟨es', hes'⟩ <;> subst_vars <;>
      · simp only [from_api_response, htid, hst, hit, hpe, hbind, htr',
          Bool.false_eq_true, if_false, asStr, asInt, Except.map]
        rfl

lemma except_bind_ok {ε α β : Type} (a : α) (f : α → Except ε β) :
    (Except.ok a >>= f) = f a := rfl

/-- C1 counterexample: on the empty object, `from_api_response` raises
`KeyError` (from `item["task_id"]`) rather than degrading to a running
result, so the normalizer is not total over all input mappings. -/
theorem C1_counterexample :
    from_api_response (fun _ => Option.none) [] = .error PyErr.keyError := rfl

/-- C1 (amended): `from_api_response` raises `KeyError` on a mapping without
`task_id`; for every input mapping within the well-formedness boundary
(string `task_id` present, integer-or-absent `status`, string-or-falsy
`progress_text`, iterable processed `result` with well-typed dict entries)
it returns a valid `TaskResult` without raising, and it degrades to
status=running with an empty audios list when data is insufficient: missing
keys, a non-JSON `result` string, an empty `result` array, or a null
`result` all normalize as the spec's §8 vectors describe once a `task_id`
is present. -/
theorem C1_normalizer_totality :
    (∀ decode (item : List (String × PyVal)), wellFormedItem decode item = true →
      (from_api_response decode item).isOk = true) ∧
    (∀ decode, decode "[]" = some (.list []) →
      from_api_response decode [("task_id", .str "t")] =
        .ok ⟨"t", 0, "", [], Option.none⟩) ∧
    (∀ decode, decode "not-json" = Option.none →
      from_api_response decode [("task_id", .str "t"), ("result", .str "not-json")] =
        .ok ⟨"t", 0, "", [], Option.none⟩) ∧
    (∀ decode, decode "[]" = some (.list []) →
      from_api_response decode [("task_id", .str "t"), ("result", .str "[]")] =
        .ok ⟨"t", 0, "", [], Option.none⟩) ∧
    (∀ decode, from_api_response decode [("task_id", .str "t"), ("result", PyVal.none)] =
      .ok ⟨"t", 0, "", [], Option.none⟩) ∧
    (∀ decode, from_api_response decode
        [("task_id", .str "t"),
         ("result", .list [.dict [("file", .str "x"), ("status", .int 1)]])] =
      .ok ⟨"t", 0, "", [⟨"x", 1, "", "", []⟩], Option.none⟩) ∧
    (∀ decode, decode "[\x7b\"file\":\"x\",\"status\":2,\"error\":\"OOM\"\x7d]" =
        some (.list [.dict [("file", .str "x"), ("status", .int 2),
          ("error", .str "OOM")]]) →
      from_api_response decode
        [("task_id", .str "t"), ("status", .int 2),
         ("result", .str "[\x7b\"file\":\"x\",\"status\":2,\"error\":\"OOM\"\x7d]")] =
      .ok ⟨"t", 2, "", [⟨"x", 2, "", "", []⟩], some "OOM"⟩) := by
  refine ⟨from_api_response_ok_of_wf, ?_, ?_, ?_, ?_, ?_, ?_⟩
  · intro decode h
    simp [from_api_response, resultDataOf, pyGetD, List.lookup, h, processEntries,
      pyIter, asStr, asInt, pyTruthy, except_bind_ok]
  · intro decode h
    simp [from_api_response, resultDataOf, pyGetD, List.lookup, h, processEntries,
      pyIter, asStr, asInt, pyTruthy, except_bind_ok]
  · intro decode h
    simp [from_api_response, resultDataOf, pyGetD, List.lookup, h, processEntries,
      pyIter, asStr, asInt, pyTruthy, except_bind_ok]
  · intro decode
    simp [from_api_response, resultDataOf, pyGetD, List.lookup, processEntries,
      pyIter, asStr, asInt, pyTruthy, except_bind_ok]
  · intro decode
    simp [from_api_response, resultDataOf, pyGetD, List.lookup, processEntries,
      pyIter, asStr, asInt, pyTruthy, audioResultOfEntry, asDictVal, except_bind_ok]
  · intro decode h
    simp [from_api_response, resultDataOf, pyGetD, List.lookup, h, processEntries,
      pyIter, asStr, asInt, pyTruthy, audioResultOfEntry, asDictVal, Except.map,
      except_bind_ok]

/-- Witness for C1 with a concrete decoder handling the spec's literals. -/
theorem C1_witness :
    wellFormedItem
        (fun s => if s = "[]" then some (.list []) else Option.none)
        [("task_id", .str "t"), ("status", .int 1), ("progress_text", .str "done")]
      = true ∧
    (from_api_response
        (fun s => if s = "[]" then some (.list []) else Option.none)
        [("task_id", .str "t"), ("status", .int 1),
         ("progress_text", .str "done")]).isOk = true ∧
    from_api_response
        (fun s => if s = "[]" then some (.list []) else Option.none)
        [("task_id", .str "t"), ("result", .str "not-json")] =
      .ok ⟨"t", 0, "", [], Option.none⟩ :=
  ⟨by decide,
   C1_normalizer_totality.1 (fun s => if s = "[]" then some (.list []) else Option.none)
     [("task_id", .str "t"), ("status", .int 1), ("progress_text", .str "done")]
     (by decide),
   C1_normalizer_totality.2.2.1
     (fun s => if s = "[]" then some (.list []) else Option.none) rfl⟩

/-! ## C6 — canonicalization round trip -/

lemma lookup_eq_none_of_not_mem_keys (k : String) (l : List (String × PyVal))
    (h : k ∉ l.map Prod.fst) : List.lookup k l = Option.none := by
  induction l with
  | nil => rfl
  | cons kv t ih =>
    simp only [List.map_cons, List.mem_cons] at h
    push_neg at h
    rw [List.lookup, beq_eq_false_iff_ne.mpr h.1]
    exact ih h.2

lemma lookup_filter_nodup (k : String) (l : List (String × PyVal))
    (p : String × PyVal → Bool) (h : (l.map Prod.fst).Nodup) :
    List.lookup k (l.filter p) =
      (List.lookup k l).bind fun v => if p (k, v) then some v else Option.none := by
  induction l with
  | nil => rfl
  | cons kv t ih =>
    obtain ⟨k', v'⟩ := kv
    simp only [List.map_cons, List.nodup_cons] at h
    obtain ⟨hnotin, hnd⟩ := h
    by_cases hk : k = k'
    · subst hk
      rw [List.filter]
      by_cases hp : p (k, v') = true
      · rw [hp]
        simp only [List.lookup, beq_self_eq_true]
        simp [hp]
      · rw [Bool.not_eq_true] at hp
        rw [hp]
        simp only [List.lookup, beq_self_eq_true]
        rw [lookup_eq_none_of_not_mem_keys k (t.filter p)
          (fun hmem => hnotin (List.map_subset Prod.fst (List.filter_sublist t).subset hmem))]
        simp [hp]
    · rw [List.filter]
      by_cases hp : p (k', v') = true
      · rw [hp]
        simp only [List.lookup, beq_eq_false_iff_ne.mpr hk]
        exact ih hnd
      · rw [Bool.not_eq_true] at hp
        rw [hp]
        rw [ih hnd]
        simp only [List.lookup, beq_eq_false_iff_ne.mpr hk]

/-- The two filters of `to_api_dict` fused into one predicate. -/
lemma to_api_dict_eq_filter (r : GenerationRequest) :
    to_api_dict r = (modelDump r).filter
      fun kv => !isEmptyStrVal kv.2 && !isNoneVal kv.2 := by
  unfold to_api_dict
  rw [List.filter_filter]

lemma modelDump_keys_nodup (r : GenerationRequest) :
    ((modelDump r).map Prod.fst).Nodup := by
  show (["prompt", "lyrics", "bpm", "key_scale", "time_signature", "vocal_language",
    "audio_duration", "batch_size", "inference_steps", "guidance_scale", "seed",
    "audio_format", "task_type"] : List String).Nodup
  decide

/-- Lookup in the canonical payload: the field's dumped value when it
survives the None/empty-string filters, absent otherwise. -/
lemma lookup_to_api_dict (k : String) (r : GenerationRequest) :
    List.lookup k (to_api_dict r) =
      (List.lookup k (modelDump r)).bind fun v =>
        if (!isEmptyStrVal v && !isNoneVal v) = true then some v else Option.none := by
  rw [to_api_dict_eq_filter, lookup_filter_nodup k _ _ (modelDump_keys_nodup r)]

/-- C6 counterexample: the valid request with `batch_size=None` (and
otherwise default fields) breaks the round trip — its canonical payload
omits `batch_size`, but re-submitting that payload refills `batch_size`
with the declared default `2`, so the reconstructed request's canonical
output contains a `batch_size` key the original payload lacks. -/
theorem C6_counterexample :
    validRequest ⟨"", "", Option.none, "", "", "en", Option.none, Option.none,
      8, 7, -1, "mp3", "text2music"⟩ = true ∧
    ((to_api_dict ⟨"", "", Option.none, "", "", "en", Option.none, Option.none,
        8, 7, -1, "mp3", "text2music"⟩).map Prod.fst).contains "batch_size" = false ∧
    (requestOfDict (to_api_dict ⟨"", "", Option.none, "", "", "en", Option.none,
        Option.none, 8, 7, -1, "mp3", "text2music"⟩)).map
      (fun r => ((to_api_dict r).map Prod.fst).contains "batch_size") = .ok true := by
  refine ⟨by decide, by decide, by rfl⟩

/-- C6 (amended): for every validly constructed request in which no field
with a non-sentinel declared default holds the omission sentinel — that is,
`batch_size` is not `None` and `vocal_language`/`task_type` are non-empty —
re-submitting `to_api_dict`'s output to the Request Model reconstructs the
original request exactly, and in particular the reconstructed request's
canonical output equals the original dict.  (With `batch_size=None`, an
empty `vocal_language`, or an empty `task_type` the omitted field refills
from its non-sentinel default and the round trip fails, see the
counterexample.) -/
theorem C6_roundtrip (r : GenerationRequest) (hv : validRequest r = true)
    (hb : r.batch_size ≠ Option.none) (hl : r.vocal_language ≠ "")
    (ht : r.task_type ≠ "") :
    requestOfDict (to_api_dict r) = .ok r ∧
    (requestOfDict (to_api_dict r)).map to_api_dict = .ok (to_api_dict r) := by
  simp only [validRequest, Bool.and_eq_true] at hv
  obtain ⟨⟨⟨⟨⟨⟨⟨⟨h1, h2⟩, h3⟩, h4⟩, h5⟩, h6⟩, h7⟩, h8⟩, h9⟩ := hv
  have haf : r.audio_format ≠ "" := audio_format_ne_empty _ h9
  replace h1 := validate_prompt_of_isOk _ h1
  replace h2 := validate_lyrics_of_isOk _ h2
  replace h3 := validate_bpm_of_isOk _ h3
  replace h4 := validate_key_scale_of_isOk _ h4
  replace h5 := validate_time_signature_of_isOk _ h5
  replace h6 := validate_vocal_language_of_isOk _ h6
  replace h7 := validate_duration_of_isOk _ h7
  replace h8 := validate_batch_size_of_isOk _ h8
  replace h9 := validate_audio_format_of_isOk _ h9
  have lk1 : List.lookup "prompt" (modelDump r) = some (.str r.prompt) := rfl
  have lk2 : List.lookup "lyrics" (modelDump r) = some (.str r.lyrics) := rfl
  have lk3 : List.lookup "bpm" (modelDump r) = some (optIntVal r.bpm) := rfl
  have lk4 : List.lookup "key_scale" (modelDump r) = some (.str r.key_scale) := rfl
  have lk5 : List.lookup "time_signature" (modelDump r) =
    some (.str r.time_signature) := rfl
  have lk6 : List.lookup "vocal_language" (modelDump r) =
    some (.str r.vocal_language) := rfl
  have lk7 : List.lookup "audio_duration" (modelDump r) =
    some (optRatVal r.audio_duration) := rfl
  have lk8 : List.lookup "batch_size" (modelDump r) = some (optIntVal r.batch_size) := rfl
  have lk9 : List.lookup "inference_steps" (modelDump r) =
    some (.int r.inference_steps) := rfl
  have lk10 : List.lookup "guidance_scale" (modelDump r) =
    some (.float r.guidance_scale) := rfl
  have lk11 : List.lookup "seed" (modelDump r) = some (.int r.seed) := rfl
  have lk12 : List.lookup "audio_format" (modelDump r) =
    some (.str r.audio_format) := rfl
  have lk13 : List.lookup "task_type" (modelDump r) = some (.str r.task_type) := rfl
  have f1 : fieldStr (to_api_dict r) "prompt" "" = .ok r.prompt := by
    unfold fieldStr
    rw [lookup_to_api_dict, lk1]
    by_cases hp : r.prompt = ""
    · rw [hp]; simp [isEmptyStrVal, isNoneVal]
    · simp [isEmptyStrVal, isNoneVal, hp]
  have f2 : fieldStr (to_api_dict r) "lyrics" "" = .ok r.lyrics := by
    unfold fieldStr
    rw [lookup_to_api_dict, lk2]
    by_cases hp : r.lyrics = ""
    · rw [hp]; simp [isEmptyStrVal, isNoneVal]
    · simp [isEmptyStrVal, isNoneVal, hp]
  have f3 : fieldOptInt (to_api_dict r) "bpm" Option.none = .ok r.bpm := by
    unfold fieldOptInt
    rw [lookup_to_api_dict, lk3]
    rcases hbpm : r.bpm with _ | n <;> simp [optIntVal, isEmptyStrVal, isNoneVal]
  have f4 : fieldStr (to_api_dict r) "key_scale" "" = .ok r.key_scale := by
    unfold fieldStr
    rw [lookup_to_api_dict, lk4]
    by_cases hp : r.key_scale = ""
    · rw [hp]; simp [isEmptyStrVal, isNoneVal]
    · simp [isEmptyStrVal, isNoneVal, hp]
  have f5 : fieldStr (to_api_dict r) "time_signature" "" = .ok r.time_signature := by
    unfold fieldStr
    rw [lookup_to_api_dict, lk5]
    by_cases hp : r.time_signature = ""
    · rw [hp]; simp [isEmptyStrVal, isNoneVal]
    · simp [isEmptyStrVal, isNoneVal, hp]
  have f6 : fieldStr (to_api_dict r) "vocal_language" "en" = .ok r.vocal_language := by
    unfold fieldStr
    rw [lookup_to_api_dict, lk6]
    simp [isEmptyStrVal, isNoneVal, hl]
  have f7 : fieldOptRat (to_api_dict r) "audio_duration" Option.none =
      .ok r.audio_duration := by
    unfold fieldOptRat
    rw [lookup_to_api_dict, lk7]
    rcases had : r.audio_duration with _ | q <;> simp [optRatVal, isEmptyStrVal, isNoneVal]
  have f8 : fieldOptInt (to_api_dict r) "batch_size" (some 2) = .ok r.batch_size := by
    unfold fieldOptInt
    rw [lookup_to_api_dict, lk8]
    rcases hbs : r.batch_size with _ | n
    · exact absurd hbs hb
    · simp [optIntVal, isEmptyStrVal, isNoneVal]
  have f9 : fieldInt (to_api_dict r) "inference_steps" 8 = .ok r.inference_steps := by
    unfold fieldInt
    rw [lookup_to_api_dict, lk9]
    simp [isEmptyStrVal, isNoneVal]
  have f10 : fieldRat (to_api_dict r) "guidance_scale" 7 = .ok r.guidance_scale := by
    unfold fieldRat
    rw [lookup_to_api_dict, lk10]
    simp [isEmptyStrVal, isNoneVal]
  have f11 : fieldInt (to_api_dict r) "seed" (-1) = .ok r.seed := by
    unfold fieldInt
    rw [lookup_to_api_dict, lk11]
    simp [isEmptyStrVal, isNoneVal]
  have f12 : fieldStr (to_api_dict r) "audio_format" "mp3" = .ok r.audio_format := by
    unfold fieldStr
    rw [lookup_to_api_dict, lk12]
    simp [isEmptyStrVal, isNoneVal, haf]
  have f13 : fieldStr (to_api_dict r) "task_type" "text2music" = .ok r.task_type := by
    unfold fieldStr
    rw [lookup_to_api_dict, lk13]
    simp [isEmptyStrVal, isNoneVal, ht]
  have hmain : requestOfDict (to_api_dict r) = .ok r := by
    simp only [requestOfDict, f1, f2, f3, f4, f5, f6, f7, f8, f9, f10, f11, f12, f13,
      except_bind_ok, mkGenerationRequest, h1, h2, h3, h4, h5, h6, h7, h8, h9]
  exact ⟨hmain, by rw [hmain]; rfl⟩

/-- Witness for C6: the round trip at a concrete valid request with
`batch_size=2` and defaults elsewhere. -/
theorem C6_witness :
    validRequest ⟨"lofi beats", "", Option.none, "", "", "en", Option.none,
      some 2, 8, 7, -1, "mp3", "text2music"⟩ = true ∧
    requestOfDict (to_api_dict ⟨"lofi beats", "", Option.none, "", "", "en",
        Option.none, some 2, 8, 7, -1, "mp3", "text2music"⟩) =
      .ok ⟨"lofi beats", "", Option.none, "", "", "en", Option.none, some 2, 8, 7,
        -1, "mp3", "text2music"⟩ :=
  ⟨by decide,
   (C6_roundtrip ⟨"lofi beats", "", Option.none, "", "", "en", Option.none, some 2,
      8, 7, -1, "mp3", "text2music"⟩ (by decide) (by simp) (by decide) (by decide)).1⟩

end AutoMusicGen
